import Mathlib

/-!
Verification of crates/rpc-client/src/icp_poller.rs.

The file is a shallow embedding of the ICP poller builder, its parameter
cache and the run-time behaviour of a started poller, as pure
state-passing functions over Nat counters. usize is modelled as Nat; the
usize maximum appears only as the sentinel stored for an unset limit.
-/

/-- Sentinel stored by set_limit for an unset limit (usize maximal value). -/
def USIZE_MAX : Nat := 2 ^ 64 - 1

/-- Duration in nanoseconds, mirroring the standard Duration type. -/
structure Duration where
  nanos : Nat

/-- Duration built from whole seconds. -/
def Duration.from_secs (s : Nat) : Duration :=
  ⟨s * 1000000000⟩

/-- The upgraded (strong) transport client. Only its configured poll
interval is observed by the poller builder. -/
structure Client where
  poll_interval : Duration

/-- Weak reference to the client: upgrading yields the client while it is
alive, and nothing once it has been dropped. -/
abbrev WeakClient : Type := Option Client

/-- Upgrade of the weak reference, mirroring Weak upgrade semantics at
one instant: the strong client when alive, none when dropped. -/
def WeakClient.upgrade (w : WeakClient) : Option Client := w

/-- Mirror of struct IcpPollerBuilder: configuration accumulated before a
schedule exists. Timer identities are modelled as Nat. -/
structure IcpPollerBuilder (P : Type) where
  client : WeakClient
  method : String
  params : P
  poll_interval : Duration
  limit : Nat
  timer_id : Option Nat

/-- Mirror of IcpPollerBuilder::new: the poll interval defaults to the
configured interval of the client when the weak reference upgrades, and
to a fixed 7 second fallback otherwise; the limit starts at the usize
maximum and no timer id is held. -/
def IcpPollerBuilder.new {P : Type} (client : WeakClient) (method : String)
    (params : P) : IcpPollerBuilder P :=
  { client := client
    method := method
    params := params
    timer_id := none
    poll_interval :=
      match WeakClient.upgrade client with
      | none => Duration.from_secs 7
      | some c => c.poll_interval
    limit := USIZE_MAX }

/-- Mirror of IcpPollerBuilder::set_limit: an unset limit is stored as the
usize maximum. -/
def IcpPollerBuilder.set_limit {P : Type} (b : IcpPollerBuilder P)
    (limit : Option Nat) : IcpPollerBuilder P :=
  { b with limit := limit.getD USIZE_MAX }

/-- Mirror of IcpPollerBuilder::with_limit. -/
def IcpPollerBuilder.with_limit {P : Type} (b : IcpPollerBuilder P)
    (limit : Option Nat) : IcpPollerBuilder P :=
  b.set_limit limit

/-- Mirror of IcpPollerBuilder::set_poll_interval. -/
def IcpPollerBuilder.set_poll_interval {P : Type} (b : IcpPollerBuilder P)
    (d : Duration) : IcpPollerBuilder P :=
  { b with poll_interval := d }

/-- Mirror of IcpPollerBuilder::with_poll_interval. -/
def IcpPollerBuilder.with_poll_interval {P : Type} (b : IcpPollerBuilder P)
    (d : Duration) : IcpPollerBuilder P :=
  b.set_poll_interval d

/-- Mirror of enum ParamsOnce: typed parameters before serialization, or
the serialized raw value afterwards. B stands for the raw value type. -/
inductive ParamsOnce (P B : Type) where
  | Typed (p : P)
  | Serialized (b : B)

/-- Mirror of ParamsOnce::get as a state-passing function, with the serde
serialization abstracted as the function encode. In the Typed state it
runs init: encode the value and, only on success, replace the state by
Serialized; on encode failure the early return leaves the state Typed.
In the Serialized state it returns the cached value unchanged. -/
def ParamsOnce.get {P B E : Type} (encode : P → Except E B) :
    ParamsOnce P B → Except E B × ParamsOnce P B
  | .Typed p =>
    match encode p with
    | .ok v => (.ok v, .Serialized v)
    | .error e => (.error e, .Typed p)
  | .Serialized b => (.ok b, .Serialized b)

/-- Outcome of calling into_stream: the source aborts the process with a
panic message; a recoverable error value or an actual stream are the
alternatives the contract could return instead. -/
inductive StreamOutcome (R : Type) where
  | aborted (msg : String)
  | errorValue (msg : String)
  | stream (items : List R)

/-- Mirror of IcpPollerBuilder::into_stream: the body unconditionally
aborts with a panic carrying this exact message; the trailing
stream::empty() expression is unreachable. -/
def IcpPollerBuilder.into_stream {P R : Type} (_b : IcpPollerBuilder P) :
    StreamOutcome R :=
  .aborted "Streams cannot be used ICP canisters."

/-- Observable effects of one started poller: counters of encoder
invocations, issued transport requests and handler invocations, the
shared poll_count cell, and the recurring timer registration (some id
while registered, none once cleared or not yet registered). -/
structure World where
  encodeCalls : Nat
  transportCalls : Nat
  handlerCalls : Nat
  pollCount : Nat
  registeredTimer : Option Nat

/-- World before start has run: no effects, no timer. -/
def World.init : World :=
  ⟨0, 0, 0, 0, none⟩

/-- Values the poll closure copies out of self when it is created inside
start. Both limit and timer_id are Copy fields, and Rust 2021 disjoint
capture copies them at closure creation time, which happens before
set_timer_interval runs and before timer_id is assigned; so the captured
timer id is the value timer_id held at that moment (none). -/
structure TickEnv where
  capturedLimit : Nat
  capturedTimerId : Option Nat

/-- Mirror of ic_cdk_timers::clear_timer restricted to this poller: if the
given id is the registered recurring timer, it stops firing. -/
def clear_timer (id : Nat) (w : World) : World :=
  if w.registeredTimer = some id then { w with registeredTimer := none } else w

/-- Synchronous part of one spawned tick, up to the await on the transport
request. The async body builds a fresh ParamsOnce.Typed cache and calls
get on it, so the encoder runs exactly once per tick; encOk abstracts
whether serde serialization of the (fixed) parameters succeeds. On
encode failure the body logs and returns before any request is issued;
on success the request is issued. The Bool result tells whether a call
is now in flight. -/
def issueTick (encOk : Bool) (w : World) : World × Bool :=
  let w := { w with encodeCalls := w.encodeCalls + 1 }
  if encOk then ({ w with transportCalls := w.transportCalls + 1 }, true)
  else (w, false)

/-- Completion of one in-flight transport call, mirroring the match on
result in the spawned future. On Ok: poll_count is incremented, the
handler is invoked, and if the captured limit is reached the captured
timer id is cleared (when one was captured). On Err: only a log line. -/
def completeTick (env : TickEnv) (callOk : Bool) (w : World) : World :=
  if callOk then
    let w2 : World := { w with
      pollCount := w.pollCount + 1
      handlerCalls := w.handlerCalls + 1 }
    if env.capturedLimit ≤ w2.pollCount then
      match env.capturedTimerId with
      | some id => clear_timer id w2
      | none => w2
    else w2
  else w

/-- One firing of the recurring timer, run to completion: it fires only
while the timer is registered, issues the tick, and, when a call went
out, processes its completion. -/
def tick (env : TickEnv) (encOk callOk : Bool) (w : World) : World :=
  if w.registeredTimer.isSome then
    let p := issueTick encOk w
    if p.2 then completeTick env callOk p.1 else p.1
  else w

/-- A sequence of recurring timer firings, each with its own transport
outcome; encOk is fixed across the run because the parameters are fixed
and serde serialization of a fixed value is deterministic. -/
def runFrom (env : TickEnv) (encOk : Bool) (callOks : List Bool) (w : World) :
    World :=
  callOks.foldl (fun w c => tick env encOk c w) w

/-- Mirror of IcpPollerBuilder::start up to the first await point. Steps,
in source order: upgrade the weak client, returning the error string on
failure with no effects; create the poll closure, copying limit and
timer_id (still none) out of self; run the initial poll, whose spawned
body executes synchronously up to the transport await; register the
recurring timer via set_timer_interval; return the fresh timer id. The
TickEnv carrying the values captured by the closure is returned with the
id so that later completions can be modelled. -/
def IcpPollerBuilder.start {P : Type} (b : IcpPollerBuilder P) (encOk : Bool)
    (freshId : Nat) : Except String (Nat × TickEnv) × World :=
  match WeakClient.upgrade b.client with
  | none => (.error "Client has been dropped.", World.init)
  | some _ =>
    let env : TickEnv := { capturedLimit := b.limit, capturedTimerId := b.timer_id }
    let p := issueTick encOk World.init
    let w2 := { p.1 with registeredTimer := some freshId }
    (.ok (freshId, env), w2)

/-- A full run of one poller: start (which issues the immediate tick),
then the completion of the immediate call (when one was issued), then a
sequence of recurring timer firings with the given outcomes. -/
def startAndRun {P : Type} (b : IcpPollerBuilder P) (encOk firstCallOk : Bool)
    (rest : List Bool) (freshId : Nat) : Except String Nat × World :=
  match b.start encOk freshId with
  | (.error e, w) => (.error e, w)
  | (.ok (id, env), w) =>
    let w := if encOk then completeTick env firstCallOk w else w
    (.ok id, runFrom env encOk rest w)

/-- Mirror of IcpPollerBuilder::stop: take the held timer id, clearing the
field; when one was held, clear_timer is called on it. The second
component records which clear_timer call was made, if any. -/
def IcpPollerBuilder.stop {P : Type} (b : IcpPollerBuilder P) :
    IcpPollerBuilder P × Option Nat :=
  match b.timer_id with
  | some id => ({ b with timer_id := none }, some id)
  | none => (b, none)

/-- Concrete sample poller used by concrete evaluations: a live client
configured with a 5 second interval, the eth_blockNumber method, and
unit-like parameters modelled as the number 0. -/
def sampleBuilder : IcpPollerBuilder Nat :=
  IcpPollerBuilder.new (some ⟨Duration.from_secs 5⟩) "eth_blockNumber" 0

/-- Concrete poller whose client has already been dropped. -/
def deadClientBuilder : IcpPollerBuilder Nat :=
  IcpPollerBuilder.new none "eth_blockNumber" 0

/-- Helper: clear_timer changes only the timer registration. -/
theorem clear_timer_counters (id : Nat) (w : World) :
    (clear_timer id w).pollCount = w.pollCount ∧
    (clear_timer id w).handlerCalls = w.handlerCalls ∧
    (clear_timer id w).encodeCalls = w.encodeCalls ∧
    (clear_timer id w).transportCalls = w.transportCalls := by
  unfold clear_timer
  split <;> exact ⟨rfl, rfl, rfl, rfl⟩

/-- Helper: the poll counter after a completion, by case on the outcome. -/
theorem completeTick_pollCount (env : TickEnv) (callOk : Bool) (w : World) :
    (completeTick env callOk w).pollCount =
      if callOk then w.pollCount + 1 else w.pollCount := by
  unfold completeTick
  cases callOk with
  | false => simp
  | true =>
    simp only [if_true]
    split
    · cases env.capturedTimerId with
      | none => rfl
      | some id => exact (clear_timer_counters id _).1
    · rfl

/-- Helper: the handler count after a completion, by case on the outcome. -/
theorem completeTick_handlerCalls (env : TickEnv) (callOk : Bool) (w : World) :
    (completeTick env callOk w).handlerCalls =
      if callOk then w.handlerCalls + 1 else w.handlerCalls := by
  unfold completeTick
  cases callOk with
  | false => simp
  | true =>
    simp only [if_true]
    split
    · cases env.capturedTimerId with
      | none => rfl
      | some id => exact (clear_timer_counters id _).2.1
    · rfl

/-- Helper: one timer firing never decreases the poll counter. -/
theorem pollCount_le_tick (env : TickEnv) (encOk callOk : Bool) (w : World) :
    w.pollCount ≤ (tick env encOk callOk w).pollCount := by
  unfold tick issueTick
  split
  · cases encOk with
    | false => simp
    | true =>
      simp only [if_true]
      rw [completeTick_pollCount]
      split <;> simp
  · exact Nat.le_refl _

/-- Helper: a sequence of timer firings never decreases the poll counter. -/
theorem pollCount_le_runFrom (env : TickEnv) (encOk : Bool) (callOks : List Bool)
    (w : World) : w.pollCount ≤ (runFrom env encOk callOks w).pollCount := by
  induction callOks generalizing w with
  | nil => exact Nat.le_refl _
  | cons c cs ih =>
    exact Nat.le_trans (pollCount_le_tick env encOk c w) (ih _)

/-- C4: when the weak client reference cannot be upgraded at the moment
start is called, start returns the client-unavailable error (the string
the source uses), no transport call is ever issued, no encoder runs, and
no timer is registered. -/
theorem start_dead_client_no_effects {P : Type} (b : IcpPollerBuilder P)
    (encOk : Bool) (freshId : Nat) (h : b.client = none) :
    b.start encOk freshId = (.error "Client has been dropped.", World.init) ∧
    World.init.transportCalls = 0 ∧ World.init.encodeCalls = 0 ∧
    World.init.registeredTimer = none := by
  refine ⟨?_, rfl, rfl, rfl⟩
  unfold IcpPollerBuilder.start WeakClient.upgrade
  rw [h]

/-- Witness for C4 at the concrete dropped-client poller. -/
theorem start_dead_client_no_effects_witness :
    deadClientBuilder.start true 7 =
      (.error "Client has been dropped.", World.init) :=
  (start_dead_client_no_effects deadClientBuilder true 7 rfl).1

/-- C5: when the weak client upgrades, start runs the immediate tick on
the initial world, before the recurring timer is registered, and returns
the id of that recurring timer; with the parameters encoding, the
immediate tick has already issued the first transport call. -/
theorem start_immediate_tick_then_timer {P : Type} (b : IcpPollerBuilder P)
    (c : Client) (encOk : Bool) (freshId : Nat) (h : b.client = some c) :
    b.start encOk freshId =
      (.ok (freshId, ⟨b.limit, b.timer_id⟩),
        { (issueTick encOk World.init).1 with registeredTimer := some freshId }) ∧
    (issueTick true World.init).1.transportCalls = 1 := by
  refine ⟨?_, rfl⟩
  unfold IcpPollerBuilder.start WeakClient.upgrade
  rw [h]

/-- Witness for C5 at the concrete live-client poller. -/
theorem start_immediate_tick_then_timer_witness :
    sampleBuilder.start true 7 =
      (.ok (7, ⟨sampleBuilder.limit, sampleBuilder.timer_id⟩),
        { (issueTick true World.init).1 with registeredTimer := some 7 }) :=
  (start_immediate_tick_then_timer sampleBuilder ⟨Duration.from_secs 5⟩ true 7
    rfl).1

/-- C8: a freshly built poller defaults its poll interval to the poll
interval configured on the client when the weak reference upgrades at
construction time, and to the fixed 7 second fallback otherwise. -/
theorem new_default_poll_interval {P : Type} (method : String) (params : P) :
    (∀ c : Client,
      (IcpPollerBuilder.new (some c) method params).poll_interval =
        c.poll_interval) ∧
    (IcpPollerBuilder.new (none : WeakClient) method params).poll_interval =
      Duration.from_secs 7 :=
  ⟨fun _ => rfl, rfl⟩

/-- C3 counterexample: at a concrete poller, into_stream does not surface
a recoverable error value; it aborts the process (panic) with the exact
message of the source. -/
theorem into_stream_aborts_concrete :
    (sampleBuilder.into_stream : StreamOutcome Nat) =
      StreamOutcome.aborted "Streams cannot be used ICP canisters." :=
  rfl

/-- C3 amended: requesting the stream adapter always aborts the process
with the panic message of the source; no recoverable error value and no
stream is ever returned. -/
theorem into_stream_always_aborts {P R : Type} (b : IcpPollerBuilder P) :
    (b.into_stream : StreamOutcome R) =
      StreamOutcome.aborted "Streams cannot be used ICP canisters." :=
  rfl

/-- C1: evaluation at the failing input. With limit 1, a successful
immediate tick followed by one more successful timer firing leaves the
handler invoked twice, a second transport call issued, the counter at 2,
and the recurring timer still registered: the limit check inside the
spawned future reads the captured timer id, which is none because the
closure copied timer_id before set_timer_interval assigned it, so
clear_timer never runs and the claimed terminal transition never
happens. -/
theorem limit_reached_timer_not_cancelled :
    (startAndRun (sampleBuilder.with_limit (some 1)) true true [true] 5).2.handlerCalls = 2 ∧
    (startAndRun (sampleBuilder.with_limit (some 1)) true true [true] 5).2.transportCalls = 2 ∧
    (startAndRun (sampleBuilder.with_limit (some 1)) true true [true] 5).2.pollCount = 2 ∧
    (startAndRun (sampleBuilder.with_limit (some 1)) true true [true] 5).2.registeredTimer = some 5 :=
  ⟨rfl, rfl, rfl, rfl⟩

/-- C2: evaluation at the failing input. Two executed ticks (the
immediate one plus one timer firing) run the parameter encoder twice,
not once: each spawned tick builds a fresh ParamsOnce.Typed cache inside
the async body, so the Serialized state is never carried from one tick
to the next. -/
theorem params_encoded_every_tick :
    (startAndRun sampleBuilder true true [true] 5).2.encodeCalls = 2 :=
  rfl

/-- C6: across any tick or sequence of ticks the poll counter never
decreases; a completion of a successful transport call increments the
counter by exactly one and invokes the handler exactly once; a failed
completion changes nothing at all (no counter increment, no handler
invocation, timer registration untouched). -/
theorem pollCount_monotone_success_only (env : TickEnv) (w : World) :
    (∀ encOk callOk : Bool, w.pollCount ≤ (tick env encOk callOk w).pollCount) ∧
    (∀ (encOk : Bool) (callOks : List Bool),
      w.pollCount ≤ (runFrom env encOk callOks w).pollCount) ∧
    ((completeTick env true w).pollCount = w.pollCount + 1 ∧
      (completeTick env true w).handlerCalls = w.handlerCalls + 1) ∧
    completeTick env false w = w := by
  refine ⟨fun encOk callOk => pollCount_le_tick env encOk callOk w,
    fun encOk callOks => pollCount_le_runFrom env encOk callOks w, ⟨?_, ?_⟩, rfl⟩
  · rw [completeTick_pollCount]
    rfl
  · rw [completeTick_handlerCalls]
    rfl

/-- C7: the first get on a Typed cache whose encoding succeeds returns
the encoded value and moves the state to Serialized; a get whose
encoding fails returns the error and leaves the state Typed; a get on a
Serialized cache returns the cached value with the state unchanged, so
the transition is irreversible and later calls reuse the cached value. -/
theorem ParamsOnce.get_spec {P B E : Type} (encode : P → Except E B) (p : P) :
    (∀ v : B, encode p = .ok v →
      ParamsOnce.get encode (ParamsOnce.Typed p) =
        (.ok v, ParamsOnce.Serialized v)) ∧
    (∀ e : E, encode p = .error e →
      ParamsOnce.get encode (ParamsOnce.Typed p) =
        (.error e, ParamsOnce.Typed p)) ∧
    (∀ b : B, ParamsOnce.get encode (ParamsOnce.Serialized b) =
      (.ok b, ParamsOnce.Serialized b)) := by
  refine ⟨fun v hv => ?_, fun e he => ?_, fun b => rfl⟩
  · simp [ParamsOnce.get, hv]
  · simp [ParamsOnce.get, he]

/-- Witness for C7 at a concrete cache and encoder. -/
theorem ParamsOnce.get_spec_witness :
    ParamsOnce.get (fun n : Nat => (Except.ok (n + 1) : Except String Nat))
      (ParamsOnce.Typed 3) = (Except.ok 4, ParamsOnce.Serialized 4) :=
  (ParamsOnce.get_spec
    (fun n : Nat => (Except.ok (n + 1) : Except String Nat)) 3).1 4 rfl

/-- C9: stop on a builder holding a timer id clears the id and calls
clear_timer on it exactly once; a second stop is a no-op; and stopping
right after a successful start, before any tick completion, leaves zero
handler invocations with the recurring timer cleared, after which a
world without a registered timer is terminal (timer firings change
nothing). -/
theorem stop_idempotent_and_stop_before_ticks {P : Type}
    (b : IcpPollerBuilder P) (id freshId : Nat) (c : Client) (encOk : Bool)
    (h : b.timer_id = some id) (hc : b.client = some c) :
    b.stop = ({ b with timer_id := none }, some id) ∧
    b.stop.1.stop = (b.stop.1, none) ∧
    (b.start encOk freshId).2.handlerCalls = 0 ∧
    (clear_timer freshId (b.start encOk freshId).2).registeredTimer = none ∧
    (∀ (env : TickEnv) (encOk2 callOk : Bool) (w : World),
      w.registeredTimer = none → tick env encOk2 callOk w = w) := by
  have hstop : b.stop = ({ b with timer_id := none }, some id) := by
    unfold IcpPollerBuilder.stop
    rw [h]
  have hstart : b.start encOk freshId =
      (.ok (freshId, ⟨b.limit, b.timer_id⟩),
        { (issueTick encOk World.init).1 with registeredTimer := some freshId }) := by
    unfold IcpPollerBuilder.start WeakClient.upgrade
    rw [hc]
  refine ⟨hstop, ?_, ?_, ?_, ?_⟩
  · rw [hstop]
    rfl
  · rw [hstart]
    cases encOk <;> rfl
  · rw [hstart]
    unfold clear_timer
    simp
  · intro env encOk2 callOk w hw
    unfold tick
    rw [hw]
    rfl

/-- Witness for C9 at a concrete builder holding timer id 3. -/
theorem stop_idempotent_and_stop_before_ticks_witness :
    ({ sampleBuilder with timer_id := some 3 } : IcpPollerBuilder Nat).stop =
      ({ { sampleBuilder with timer_id := some 3 } with timer_id := none },
        some 3) :=
  (stop_idempotent_and_stop_before_ticks
    { sampleBuilder with timer_id := some 3 } 3 9 ⟨Duration.from_secs 5⟩ true
    rfl rfl).1

/-- C10: with the limit set to Some 0 and a live client, start still runs
the immediate tick (issuing a transport call when encoding succeeds) and
still registers the recurring timer; and the number of transport calls
start issues does not depend on the configured limit at all, because the
limit is read only inside the completion of a successful call. -/
theorem limit_zero_still_polls {P : Type} (b : IcpPollerBuilder P) (c : Client)
    (freshId : Nat) (h : b.client = some c) :
    ((b.with_limit (some 0)).start true freshId).1 =
      .ok (freshId, ⟨0, b.timer_id⟩) ∧
    ((b.with_limit (some 0)).start true freshId).2.transportCalls = 1 ∧
    ((b.with_limit (some 0)).start true freshId).2.registeredTimer =
      some freshId ∧
    (∀ (l : Option Nat) (encOk : Bool),
      ((b.with_limit l).start encOk freshId).2.transportCalls =
        (b.start encOk freshId).2.transportCalls) := by
  have hstartb : ∀ encOk : Bool, b.start encOk freshId =
      (.ok (freshId, ⟨b.limit, b.timer_id⟩),
        { (issueTick encOk World.init).1 with registeredTimer := some freshId }) := by
    intro encOk
    unfold IcpPollerBuilder.start WeakClient.upgrade
    rw [h]
  have hstartl : ∀ (l : Option Nat) (encOk : Bool),
      (b.with_limit l).start encOk freshId =
        (.ok (freshId, ⟨l.getD USIZE_MAX, b.timer_id⟩),
          { (issueTick encOk World.init).1 with registeredTimer := some freshId }) := by
    intro l encOk
    unfold IcpPollerBuilder.with_limit IcpPollerBuilder.set_limit
      IcpPollerBuilder.start WeakClient.upgrade
    rw [show ({ b with limit := l.getD USIZE_MAX } :
      IcpPollerBuilder P).client = some c from h]
  refine ⟨?_, ?_, ?_, fun l encOk => ?_⟩
  · rw [hstartl (some 0) true]
    rfl
  · rw [hstartl (some 0) true]
    rfl
  · rw [hstartl (some 0) true]
  · rw [hstartl l encOk, hstartb encOk]

/-- Witness for C10 at the concrete live-client poller. -/
theorem limit_zero_still_polls_witness :
    ((sampleBuilder.with_limit (some 0)).start true 9).2.transportCalls = 1 :=
  (limit_zero_still_polls sampleBuilder ⟨Duration.from_secs 5⟩ 9 rfl).2.1
